import Mathlib

/-!
Verification of the natural-language date/time, duration, recurrence and
availability logic of the Google Calendar event agent (src/main.py).

The Python code is shallowly embedded: instants and local date/times are
modelled as integer minutes, regular-expression matches as character-list
scanners that mirror the source patterns, and fallible paths as
`Except String` values whose error strings name the Python exception the
source raises on that path.
-/

/-- Character class of the regex token whitespace, restricted to the ASCII
whitespace characters Python's re module matches. -/
def isSpaceChar (c : Char) : Bool :=
  c = ' ' || c = '\t' || c = '\n' || c = '\r' || c = '\x0b' || c = '\x0c'

/-- Character class of the regex token for a decimal digit. -/
def isDigitChar (c : Char) : Bool :=
  '0' ≤ c && c ≤ '9'

/-- ASCII letter, the character class of the pattern segment matching a day name. -/
def isAsciiLetter (c : Char) : Bool :=
  ('a' ≤ c && c ≤ 'z') || ('A' ≤ c && c ≤ 'Z')

/-- Word character, the regex word class over ASCII as used by the recurrence pattern. -/
def isWordChar (c : Char) : Bool :=
  isAsciiLetter c || isDigitChar c || c = '_'

/-- ASCII lower-casing of one character, as Python's str.lower does on ASCII input. -/
def lowerChar (c : Char) : Char :=
  if 'A' ≤ c && c ≤ 'Z' then Char.ofNat (c.toNat + 32) else c

/-- ASCII lower-casing of a string (Python str.lower on ASCII input). -/
def lowerStr (s : String) : String :=
  String.mk (s.data.map lowerChar)

/-- Case-insensitive test that `cs` begins with the (lowercase) pattern `pat`,
the effect of matching a literal under the IGNORECASE flag. -/
def startsWithCI (pat : List Char) (cs : List Char) : Bool :=
  (cs.take pat.length).map lowerChar == pat

/-- Case-insensitive test that `cs` is exactly the (lowercase) word `pat`. -/
def eqCI (pat : List Char) (cs : List Char) : Bool :=
  cs.map lowerChar == pat

/-- Numeric value of a nonempty digit run, Python's int() on the captured group. -/
def natOfDigits (ds : List Char) : Nat :=
  ds.foldl (fun n c => 10 * n + (c.toNat - 48)) 0

/-!  ## DurationParser (src/main.py, parse_duration, lines 226-244)  -/

/-- Embeds the duration regex of line 239: an optional leading "for" followed by
at least one whitespace character, a digit run, optional whitespace, then a unit
alternative hour|hours|minute|minutes, all case-insensitive and matched as a
prefix of the input (re.match).  Skipping a present "for "-prefix can never help
the digit run match, so the optional group needs no backtracking.  The
alternation tries "hour" before "hours" (and "minute" before "minutes") with
nothing after the group, so the captured unit is always the form without the
trailing s; the result is the captured number and that unit. -/
def matchDuration (s : String) : Option (Nat × String) :=
  let cs := s.data
  let cs1 :=
    if startsWithCI ['f', 'o', 'r'] cs then
      match cs.drop 3 with
      | c :: rest => if isSpaceChar c then rest.dropWhile isSpaceChar else cs
      | [] => cs
    else cs
  let digits := cs1.takeWhile isDigitChar
  if digits.isEmpty then none
  else
    let cs2 := (cs1.dropWhile isDigitChar).dropWhile isSpaceChar
    if startsWithCI ['h', 'o', 'u', 'r'] cs2 then some (natOfDigits digits, "hour")
    else if startsWithCI ['m', 'i', 'n', 'u', 't', 'e'] cs2 then some (natOfDigits digits, "minute")
    else none

/-- Embeds parse_duration (lines 226-244).  When the regex matches, the source
executes `value = value.int()` on the captured string; Python's str type has no
attribute `int` (the intended call is `int(value)`), so every matching input
raises AttributeError before any minutes are computed.  When the regex does not
match, the source raises ValueError carrying the offending input. -/
def parse_duration (duration : String) : Except String Nat :=
  match matchDuration duration with
  | some _ => Except.error "AttributeError: str object has no attribute int"
  | none => Except.error ("Could not parse duration string: " ++ duration)

/-!  ## RecurrenceResolver (src/main.py, parsed_recurrence, lines 277-312)  -/

/-- Result of the recurrence regex of line 290: the captured token after
"every", and, when the optional count clause matched, the captured digit run
(as written) together with the unit alternative in lowercase. -/
structure RecurrenceMatch where
  token : String
  clause : Option (String × String)
deriving DecidableEq, Repr

/-- Embeds the recurrence regex of line 290:
every, whitespace, a word-character run, optional whitespace, then optionally
"for", whitespace, a digit run, optional whitespace, a unit week|month|year and
an optional trailing s, all case-insensitive (re.match, prefix match).  The word
run is greedy, so a clause is only recognised when separated from the token; a
partially matching clause leaves the optional group unmatched, as in the source. -/
def matchRecurrence (s : String) : Option RecurrenceMatch :=
  let cs := s.data
  if startsWithCI ['e', 'v', 'e', 'r', 'y'] cs then
    match cs.drop 5 with
    | c :: rest0 =>
      if isSpaceChar c then
        let rest1 := rest0.dropWhile isSpaceChar
        let tok := rest1.takeWhile isWordChar
        if tok.isEmpty then none
        else
          let rest2 := (rest1.dropWhile isWordChar).dropWhile isSpaceChar
          let clause :=
            if startsWithCI ['f', 'o', 'r'] rest2 then
              match rest2.drop 3 with
              | c2 :: rest3 =>
                if isSpaceChar c2 then
                  let rest4 := rest3.dropWhile isSpaceChar
                  let digits := rest4.takeWhile isDigitChar
                  if digits.isEmpty then none
                  else
                    let rest5 := (rest4.dropWhile isDigitChar).dropWhile isSpaceChar
                    if startsWithCI ['w', 'e', 'e', 'k'] rest5 then
                      some (String.mk digits, "week")
                    else if startsWithCI ['m', 'o', 'n', 't', 'h'] rest5 then
                      some (String.mk digits, "month")
                    else if startsWithCI ['y', 'e', 'a', 'r'] rest5 then
                      some (String.mk digits, "year")
                    else none
                else none
              | [] => none
            else none
          some { token := String.mk tok, clause := clause }
      else none
    | [] => none
  else none

/-- Embeds the freq_match dictionary of lines 292-296, verbatim: note the
misspelled key "satday" (its value still says BYDAY=SA) and the lowercase u in
the Tuesday entry. -/
def freq_match (tok : String) : Option String :=
  if tok = "daily" then some "DAILY"
  else if tok = "weekly" then some "WEEKLY"
  else if tok = "monthly" then some "MONTHLY"
  else if tok = "yearly" then some "YEARLY"
  else if tok = "monday" then some "WEEKLY;BYDAY=MO"
  else if tok = "tuesday" then some "WEEKLY;BYDAY=Tu"
  else if tok = "wednesday" then some "WEEKLY;BYDAY=WE"
  else if tok = "thursday" then some "WEEKLY;BYDAY=TH"
  else if tok = "friday" then some "WEEKLY;BYDAY=FR"
  else if tok = "satday" then some "WEEKLY;BYDAY=SA"
  else if tok = "sunday" then some "WEEKLY;BYDAY=SU"
  else none

/-- Embeds parsed_recurrence (lines 277-312).  The token is lower-cased and
looked up in freq_match with default WEEKLY.  A week count is interpolated as
the captured string; month and year counts are converted to int and multiplied
by 4 and 52 respectively.  Without a regex match the source raises ValueError
carrying the input. -/
def parsed_recurrence (recurrence_string : String) : Except String String :=
  match matchRecurrence recurrence_string with
  | none => Except.error ("couldn't parse recurrence string: " ++ recurrence_string)
  | some m =>
    let dayorfreq := lowerStr m.token
    let rrule := "RRULE:FREQ=" ++ ((freq_match dayorfreq).getD "WEEKLY")
    match m.clause with
    | none => Except.ok rrule
    | some (countStr, unit) =>
      if unit = "week" then Except.ok (rrule ++ ";COUNT=" ++ countStr)
      else if unit = "month" then
        Except.ok (rrule ++ ";COUNT=" ++ toString (natOfDigits countStr.data * 4))
      else Except.ok (rrule ++ ";COUNT=" ++ toString (natOfDigits countStr.data * 52))

/-- Claim C4: for strings matching the duration grammar the parser is claimed
to return n*60 minutes per hour unit and n minutes per minute unit, and to fail
with an error carrying the input otherwise.  The code instead raises
AttributeError on every matching string — line 242 calls value.int() on the
captured str, which has no such attribute — while the non-matching branch does
fail with the input as claimed. -/
theorem parse_duration_c4 :
    parse_duration "for 1 hour" = Except.error "AttributeError: str object has no attribute int"
  ∧ parse_duration "90 minutes" = Except.error "AttributeError: str object has no attribute int"
  ∧ parse_duration "soon" = Except.error "Could not parse duration string: soon" :=
  ⟨rfl, rfl, rfl⟩

/-- Claim C5, counterexample: the claim says "every day for 2 months" yields a
daily rule with count 8, but the frequency dictionary only contains the token
"daily", so the unrecognized token "day" falls back to plain WEEKLY frequency:
the code emits RRULE:FREQ=WEEKLY;COUNT=8, not the daily rule. -/
theorem parsed_recurrence_c5_counterexample :
    parsed_recurrence "every day for 2 months" = Except.ok "RRULE:FREQ=WEEKLY;COUNT=8"
  ∧ ("RRULE:FREQ=WEEKLY;COUNT=8" : String) ≠ "RRULE:FREQ=DAILY;COUNT=8" :=
  ⟨rfl, by decide⟩

/-- Claim C5, amended: the count clause converts weeks unchanged, months times
4 and years times 52; "every monday" gives the weekly-on-Monday rule with no
count, "every monday for 5 weeks" the same rule with count 5, and "every day
for 2 months" a WEEKLY rule (default for the unrecognized token "day") with
count 8; a year clause multiplies by 52, as "every monday for 3 years" shows. -/
theorem parsed_recurrence_c5_amended :
    parsed_recurrence "every monday" = Except.ok "RRULE:FREQ=WEEKLY;BYDAY=MO"
  ∧ parsed_recurrence "every monday for 5 weeks" = Except.ok "RRULE:FREQ=WEEKLY;BYDAY=MO;COUNT=5"
  ∧ parsed_recurrence "every day for 2 months" = Except.ok "RRULE:FREQ=WEEKLY;COUNT=8"
  ∧ parsed_recurrence "every monday for 3 years" = Except.ok "RRULE:FREQ=WEEKLY;BYDAY=MO;COUNT=156" :=
  ⟨rfl, rfl, rfl, rfl⟩

/-- Claim C6: the claim says every one of the seven weekday names yields a
weekly rule with a by-day constraint.  The dictionary key for Saturday is
misspelled "satday" (its value still reads WEEKLY;BYDAY=SA), so "every
saturday" falls to the unrecognized-token default and yields plain
RRULE:FREQ=WEEKLY with no by-day part, violating the claim; the other branch
facts (the misspelled key, a correctly mapped weekday, a literal frequency
token, and the plain-weekly default for unknown tokens) are as the code has
them. -/
theorem parsed_recurrence_c6 :
    parsed_recurrence "every saturday" = Except.ok "RRULE:FREQ=WEEKLY"
  ∧ freq_match "satday" = some "WEEKLY;BYDAY=SA"
  ∧ freq_match "saturday" = none
  ∧ parsed_recurrence "every friday" = Except.ok "RRULE:FREQ=WEEKLY;BYDAY=FR"
  ∧ parsed_recurrence "every daily" = Except.ok "RRULE:FREQ=DAILY"
  ∧ parsed_recurrence "every blorp" = Except.ok "RRULE:FREQ=WEEKLY" :=
  ⟨rfl, rfl, rfl, rfl, rfl, rfl⟩

/-!  ## DateTimeResolver: structured "next weekday" fallback
     (src/main.py, natural_language_datetime_parser, lines 149-199)  -/

/-- Embeds the tail pattern of the fallback regex of line 151: optional
whitespace followed by a captured period word morning|afternoon|evening, then
end of input.  Returns the captured group (as matched) when the tail matches,
and fails otherwise (in particular on trailing whitespace, which the anchored
pattern rejects). -/
def matchPeriodTail (cs : List Char) : Option (Option String) :=
  match cs with
  | [] => some none
  | c :: rest0 =>
    if isSpaceChar c then
      let rest := rest0.dropWhile isSpaceChar
      if eqCI ['m', 'o', 'r', 'n', 'i', 'n', 'g'] rest
          || eqCI ['a', 'f', 't', 'e', 'r', 'n', 'o', 'o', 'n'] rest
          || eqCI ['e', 'v', 'e', 'n', 'i', 'n', 'g'] rest then
        some (some (String.mk rest))
      else none
    else none

/-- Embeds the lazy time capture of the fallback regex: the shortest nonempty
prefix of the remaining input (never crossing a newline, which the dot does not
match) such that the period tail matches what is left.  Returns the captured
time text and the period group. -/
def findTimeSplit (acc rest : List Char) : Option (String × Option String) :=
  match rest with
  | [] => none
  | c :: rest2 =>
    if c = '\n' then none
    else
      match matchPeriodTail rest2 with
      | some p => some (String.mk (acc ++ [c]), p)
      | none => findTimeSplit (acc ++ [c]) rest2

/-- Embeds the optional at-clause of the fallback regex: whitespace, the
literal "at" (case-insensitive), whitespace, then the lazy time capture
followed by the period tail. -/
def matchAtClause (cs : List Char) : Option (String × Option String) :=
  match cs with
  | [] => none
  | c :: rest0 =>
    if isSpaceChar c then
      let rest1 := rest0.dropWhile isSpaceChar
      if startsWithCI ['a', 't'] rest1 then
        match rest1.drop 2 with
        | c2 :: rest2 =>
          if isSpaceChar c2 then findTimeSplit [] (rest2.dropWhile isSpaceChar)
          else none
        | [] => none
      else none
    else none

/-- Embeds the fallback regex of line 151, matched when the dateparser step
produced nothing: "next", whitespace, a letter run (the day name), an optional
at-clause capturing a time text, an optional period word, then end of input;
everything case-insensitive.  The at-clause is attempted before the bare period
tail, as regex preference does. -/
def matchNextDay (s : String) : Option (String × Option String × Option String) :=
  let cs := s.data
  if startsWithCI ['n', 'e', 'x', 't'] cs then
    match cs.drop 4 with
    | c :: rest0 =>
      if isSpaceChar c then
        let rest1 := rest0.dropWhile isSpaceChar
        let day := rest1.takeWhile isAsciiLetter
        if day.isEmpty then none
        else
          let rest2 := rest1.dropWhile isAsciiLetter
          match matchAtClause rest2 with
          | some (tp, p) => some (String.mk day, some tp, p)
          | none =>
            match matchPeriodTail rest2 with
            | some p => some (String.mk day, none, p)
            | none => none
      else none
    | [] => none
  else none

/-- Embeds the daymap dictionary of lines 156-159 (Monday 0 .. Sunday 6). -/
def daymap (d : String) : Option Int :=
  if d = "monday" then some 0
  else if d = "tuesday" then some 1
  else if d = "wednesday" then some 2
  else if d = "thursday" then some 3
  else if d = "friday" then some 4
  else if d = "saturday" then some 5
  else if d = "sunday" then some 6
  else none

/-- Embeds the period_map dictionary of lines 172-176 (default hours for
morning, afternoon, evening). -/
def period_map (p : String) : Option Nat :=
  if p = "morning" then some 9
  else if p = "afternoon" then some 13
  else if p = "evening" then some 18
  else none

/-- Embeds line 166: days ahead to the target weekday, computed modulo 7 and
coerced to 7 when the remainder is zero (Python's `... % 7 or 7`). -/
def days_ahead (target current : Int) : Int :=
  let d := (target - current + 7) % 7
  if d = 0 then 7 else d

/-- Embeds lines 156-199, the body run on a fallback-regex match.  Inputs are
the three captured groups and today's weekday number; `timeParse` stands for
the external dateutil fuzzy time parser (hour and minute on success).  An
unknown day name raises ValueError.  Otherwise the target date is today plus
`days_ahead`; the default hour comes from the period (9 when absent), and a
missing time text is replaced by "<default_hour>:00" only when a period was
captured.  Every path that then sets the time of day calls
target_date.replace(hours=..., minute=..., ...): datetime.replace accepts the
parameter `hour`, not `hours`, so the call raises TypeError before any datetime
is produced; an unparseable time text raises ValueError first. -/
def weekday_fallback (timeParse : String → Option (Nat × Nat)) (day_name : String)
    (time_part : Option String) (period : Option String) (current_weekday : Int) :
    Except String (Int × Nat × Nat) :=
  match daymap (lowerStr day_name) with
  | none => Except.error ("Invalid day name: " ++ day_name)
  | some target_weekday =>
    let d := days_ahead target_weekday current_weekday
    let default_hour : Nat :=
      match period with
      | some p => (period_map (lowerStr p)).getD 9
      | none => 9
    let tp : Option String :=
      match period with
      | some _ => some (time_part.getD (toString default_hour ++ ":00"))
      | none => time_part
    match tp with
    | some t =>
      match timeParse t with
      | some _ => Except.error "TypeError: hours is an invalid keyword argument for replace"
      | none => Except.error ("Could not parse time_part " ++ t)
    | none =>
      let _ := d
      Except.error "TypeError: hours is an invalid keyword argument for replace"

/-- Embeds the dispatch from the unparsed text into the structured fallback:
when the regex matches, the captured groups are handed to the fallback body;
when it does not, the source moves on to the generic dateutil fallback
(modelled as `none` here). -/
def next_day_fallback (timeParse : String → Option (Nat × Nat)) (datetime_str : String)
    (current_weekday : Int) : Option (Except String (Int × Nat × Nat)) :=
  match matchNextDay datetime_str with
  | none => none
  | some (day, tpart, period) => some (weekday_fallback timeParse day tpart period current_weekday)

/-- Claim C1: the modulo rule of line 166 does place the target 1 to 7 days
ahead, lands on the requested weekday, never returns today, and rolls a full
week when today already is the requested weekday.  But the rest of the claim
fails: with no explicit time and no period token the code never resolves 09:00,
because setting the time of day calls replace with the misspelled keyword
`hours` and so raises TypeError — shown here on "next monday" with today a
Monday. -/
theorem next_weekday_fallback_c1 :
    next_day_fallback (fun _ => none) "next monday" 0
      = some (Except.error "TypeError: hours is an invalid keyword argument for replace")
  ∧ (∀ t c : Fin 7, 1 ≤ days_ahead t.val c.val ∧ days_ahead t.val c.val ≤ 7
      ∧ ((c.val : Int) + days_ahead t.val c.val) % 7 = (t.val : Int))
  ∧ (∀ t : Fin 7, days_ahead t.val t.val = 7) :=
  ⟨rfl, by decide, by decide⟩

/-!  ## DateTimeResolver: end-time computation (lines 215-224)  -/

/-- Embeds the end-time computation of lines 218-222, with instants as minutes
on the UTC timeline.  When a duration string is supplied the source calls
parsed_duration(duration); no binding of that name exists in the module (the
duration function is named parse_duration), so Python raises NameError before
an end time exists.  Without a duration the end is the UTC start plus one hour. -/
def resolve_end (startUTC : Int) (duration : Option String) : Except String Int :=
  match duration with
  | some _ => Except.error "NameError: name parsed_duration is not defined"
  | none => Except.ok (startUTC + 60)

/-- Claim C3: without a duration the resolver does return end = UTC start plus
the default 60 minutes, which is strictly after the start.  With a duration
string the claim fails: the call raises NameError (the source invokes the
undefined name parsed_duration), so no end is ever computed on that branch. -/
theorem resolve_end_c3 :
    (∀ s : Int, resolve_end s none = Except.ok (s + 60) ∧ s < s + 60)
  ∧ resolve_end 0 (some "for 1 hour") = Except.error "NameError: name parsed_duration is not defined" :=
  ⟨fun s => ⟨rfl, by omega⟩, rfl⟩

/-!  ## DateTimeResolver: preferred-time-of-day extraction (lines 123-141)  -/

/-- Embeds the time_ranges dictionary of lines 126-130, with times of day as
minutes after local midnight: morning 09:00-12:00, afternoon 12:00-17:00,
evening 17:00-21:00. -/
def time_ranges (tok : String) : Option (Nat × Nat) :=
  if tok = "morning" then some (540, 720)
  else if tok = "afternoon" then some (720, 1020)
  else if tok = "evening" then some (1020, 1260)
  else none

/-- Embeds the am/pm alternative of the preferred-time regex of line 134: two
characters, a or p then m, in any case. -/
def matchAmPm (cs : List Char) : Option (List Char) :=
  match cs with
  | c1 :: c2 :: rest =>
    if (lowerChar c1 = 'a' || lowerChar c1 = 'p') && lowerChar c2 = 'm' then some rest
    else none
  | _ => none

/-- Embeds the preferred-time regex of line 134 as a prefix match (re.match):
a digit run, optional whitespace, am/pm, optional whitespace, the literal "to",
optional whitespace, a digit run, optional whitespace, am/pm, everything
case-insensitive. -/
def matchTimeRangePhrase (s : String) : Bool :=
  let cs := s.data
  let d1 := cs.takeWhile isDigitChar
  if d1.isEmpty then false
  else
    match matchAmPm ((cs.dropWhile isDigitChar).dropWhile isSpaceChar) with
    | none => false
    | some r1 =>
      let r2 := r1.dropWhile isSpaceChar
      if startsWithCI ['t', 'o'] r2 then
        let r3 := (r2.drop 2).dropWhile isSpaceChar
        let d2 := r3.takeWhile isDigitChar
        if d2.isEmpty then false
        else (matchAmPm ((r3.dropWhile isDigitChar).dropWhile isSpaceChar)).isSome
      else false

/-- Embeds the preferred-time handling of lines 123-141.  A literal
morning/afternoon/evening (lower-cased) maps through time_ranges.  Otherwise,
when the range regex matches, the source evaluates
dateutil_parser.parser(start_str).time(): parser is the parser class, whose
instances have no attribute time, so an AttributeError is raised — and the
surrounding except clause catches only ValueError, so the error escapes the
whole call.  When the regex does not match, time_frame silently stays None. -/
def preferred_time_frame (prefered_time : Option String) : Except String (Option (Nat × Nat)) :=
  match prefered_time with
  | none => Except.ok none
  | some p =>
    if lowerStr p = "morning" || lowerStr p = "afternoon" || lowerStr p = "evening" then
      Except.ok (time_ranges (lowerStr p))
    else if matchTimeRangePhrase p then
      Except.error "AttributeError: parser object has no attribute time"
    else Except.ok none

/-- Claim C8: the literal tokens do map to the fixed windows morning
09:00-12:00, afternoon 12:00-17:00 and evening 17:00-21:00, and a
non-matching phrase leaves the window absent without failing; but a phrase
matching the "<time> to <time>" pattern is claimed to be non-fatal on parse
failure, while the code raises an AttributeError (parser objects have no time
attribute) that the except ValueError does not catch, failing the whole call. -/
theorem preferred_time_c8 :
    preferred_time_frame (some "morning") = Except.ok (some (540, 720))
  ∧ preferred_time_frame (some "afternoon") = Except.ok (some (720, 1020))
  ∧ preferred_time_frame (some "evening") = Except.ok (some (1020, 1260))
  ∧ preferred_time_frame (some "around lunch") = Except.ok none
  ∧ preferred_time_frame (some "10 AM to 3 PM")
      = Except.error "AttributeError: parser object has no attribute time" :=
  ⟨rfl, rfl, rfl, rfl, rfl⟩

/-!  ## AvailabilityPlanner (src/main.py, meeting_time_suggestions, lines 442-463)  -/

/-- Outcome of the availability scan: a list of (start, end) slot pairs
(the formatted strings of line 462, kept as the instant pair they render),
the no-available-slots message of line 457, or Python's implicit None when the
while loop never runs. -/
inductive SuggestOutcome where
  | slots (l : List (Int × Int))
  | noSlotsMessage
  | pyNone
deriving DecidableEq, Repr

/-- Embeds the window test of line 451: time_frame[0] <= current_time.time()
<= time_frame[1], inclusive on both ends.  `dayStart` is local midnight of the
target day, so a candidate's wall-clock time of day is its offset from
dayStart in minutes. -/
def inTimeFrame (timeFrame : Option (Int × Int)) (dayStart current : Int) : Bool :=
  match timeFrame with
  | none => true
  | some (lo, hi) => decide (lo ≤ current - dayStart) && decide (current - dayStart ≤ hi)

/-- Embeds the free-slot scan of lines 442-463, over instants in minutes with
dayStart the local midnight of the target day and day_end one day later.
Inside the while body, line 445 sets free_end to the bare duration timedelta
(not current_time plus it), so the disjointness test of line 448 compares a
timedelta against a datetime and raises TypeError as soon as any busy interval
exists.  Lines 456-463 (the empty check, the formatting loop and both return
statements) are indented inside the while body, so every path through the body
returns during the first iteration: the loop inspects only the candidate at
dayStart, and the translation therefore inlines that single iteration.  When
the while condition fails at entry the function body ends without a return and
Python yields None. -/
def meeting_loop (dayStart durMin : Int) (busy : List (Int × Int))
    (timeFrame : Option (Int × Int)) (maxSuggestions : Nat) : Except String SuggestOutcome :=
  if dayStart + durMin ≤ dayStart + 1440 then
    match busy with
    | _ :: _ => Except.error "TypeError: comparison not supported between timedelta and datetime"
    | [] =>
      let free_slots : List Int := if inTimeFrame timeFrame dayStart dayStart then [dayStart] else []
      if free_slots.isEmpty then Except.ok SuggestOutcome.noSlotsMessage
      else Except.ok (SuggestOutcome.slots
        ((free_slots.take maxSuggestions).map (fun s => (s, s + durMin))))
  else Except.ok SuggestOutcome.pyNone

/-- Modelled from the spec's words, for comparison with meeting_loop: scan
candidate starts across the day at a 30-minute stride from local midnight,
stopping once a candidate's end would pass day-end; keep a candidate exactly
when its half-open interval is disjoint from every busy interval
(candidateEnd <= busyStart or candidateStart >= busyEnd) and, when a window is
given, its start time of day lies within the window inclusively; return the
qualifying starts in order, at most maxSuggestions of them, paired with their
ends. -/
def suggest_spec (dayStart durMin : Int) (busy : List (Int × Int))
    (timeFrame : Option (Int × Int)) (maxSuggestions : Nat) : List (Int × Int) :=
  let nCand : Nat := if durMin ≤ 1440 then ((1440 - durMin).toNat / 30) + 1 else 0
  let starts := (List.range nCand).map (fun k => dayStart + 30 * (k : Int))
  let ok := fun (s : Int) =>
    busy.all (fun bi => decide (s + durMin ≤ bi.1) || decide (s ≥ bi.2))
      && inTimeFrame timeFrame dayStart s
  ((starts.filter ok).take maxSuggestions).map (fun s => (s, s + durMin))

/-- Claim C2: the scan is claimed to return every qualifying 30-minute-stride
candidate of the day, in order, up to maxSuggestions.  On a free day with a
60-minute duration and bound 3 the spec's algorithm yields three slots, but the
code returns only the single midnight slot, because its return statements sit
inside the while body and end the scan during the first iteration; and as soon
as any busy interval exists the code raises TypeError, since line 445 sets the
candidate end to a bare timedelta which line 448 then compares against a
datetime. -/
theorem meeting_suggestions_c2 :
    meeting_loop 0 60 [] none 3 = Except.ok (SuggestOutcome.slots [(0, 60)])
  ∧ suggest_spec 0 60 [] none 3 = [(0, 60), (30, 90), (60, 120)]
  ∧ meeting_loop 0 60 [(600, 660)] none 3
      = Except.error "TypeError: comparison not supported between timedelta and datetime" :=
  ⟨rfl, by decide, rfl⟩

/-- Claim C7: whenever the scan returns candidate slots and a window was
supplied, every returned slot's wall-clock start time lies within the window,
inclusive on both ends; and with the morning window (lo = 540, i.e.
09:00-12:00) no returned slot starts at or after 12:00 (720 minutes). -/
theorem availability_window_c7 :
    ∀ (dayStart durMin : Int) (busy : List (Int × Int)) (maxS : Nat) (lo hi : Int)
      (l : List (Int × Int)),
      meeting_loop dayStart durMin busy (some (lo, hi)) maxS
        = Except.ok (SuggestOutcome.slots l) →
      ∀ p ∈ l, (lo ≤ p.1 - dayStart ∧ p.1 - dayStart ≤ hi)
        ∧ (lo = 540 → p.1 - dayStart < 720) := by
  intro ds dm busy maxS lo hi l h p hp
  cases busy with
  | cons b bs =>
    simp only [meeting_loop] at h
    split at h
    · exact Except.noConfusion h
    · exact SuggestOutcome.noConfusion (Except.ok.inj h)
  | nil =>
    by_cases hc : ds + dm ≤ ds + 1440
    · by_cases hw : inTimeFrame (some (lo, hi)) ds ds = true
      · have hw2 := hw
        rw [inTimeFrame] at hw2
        simp only [Bool.and_eq_true, decide_eq_true_eq] at hw2
        simp [meeting_loop, hc, hw] at h
        subst h
        have hpd : p = (ds, ds + dm) := by simpa using List.take_subset _ _ hp
        subst hpd
        refine ⟨⟨?_, ?_⟩, fun hlo => ?_⟩
        · show lo ≤ ds - ds
          omega
        · show ds - ds ≤ hi
          omega
        · show ds - ds < 720
          omega
      · simp [meeting_loop, hc, hw] at h
    · simp [meeting_loop, hc] at h

/-- Concrete instance of the window theorem: on a free day with a supplied
window covering local midnight, the scan returns the midnight slot, and that
slot satisfies the window containment the theorem asserts. -/
theorem availability_window_c7_witness :
    ((0 : Int) ≤ ((0 : Int), (60 : Int)).1 - 0 ∧ ((0 : Int), (60 : Int)).1 - 0 ≤ 0)
  ∧ ((0 : Int) = 540 → ((0 : Int), (60 : Int)).1 - 0 < 720) :=
  availability_window_c7 0 60 [] 3 0 0 [(0, 60)] rfl (0, 60) (List.mem_singleton.mpr rfl)

/-!  ## ToolFacade: update_event (src/main.py, lines 322-364)  -/

/-- A value stored in the partial event body sent to the gateway patch call:
Python None, a string, or the attendees list. -/
inductive PyVal where
  | pyNone
  | str (s : String)
  | list (l : List String)
deriving DecidableEq, Repr

/-- The Python value of an optional string argument. -/
def pyOfOpt (o : Option String) : PyVal :=
  match o with
  | some s => PyVal.str s
  | none => PyVal.pyNone

/-- Embeds the body construction of update_event (lines 335-351) as the
ordered field list handed to the gateway patch operation.  Parameters mirror
the Python signature: summary, start_time and end_time have no default, while
location and description default to the empty string — so a caller who omits
them still passes "", which is not None and therefore enters the body.  Note
line 342: when end_time is provided, the value stored under the end_time key
is `summary`, not end_time. -/
def update_event_body (summary start_time end_time : Option String)
    (location description : Option String) (recurrence : Option String)
    (attendees : Option (List String)) : List (String × PyVal) :=
  (match summary with | some v => [("summary", PyVal.str v)] | none => [])
  ++ (match start_time with | some v => [("start_time", PyVal.str v)] | none => [])
  ++ (match end_time with | some _ => [("end_time", pyOfOpt summary)] | none => [])
  ++ (match location with | some v => [("location", PyVal.str v)] | none => [])
  ++ (match description with | some v => [("description", PyVal.str v)] | none => [])
  ++ (match recurrence with | some v => [("recurrence", PyVal.str v)] | none => [])
  ++ (match attendees with | some v => [("attendees", PyVal.list v)] | none => [])

/-- Claim C9: the patch body is claimed to hold exactly the caller-provided
fields with the caller's values, the end field carrying the provided end time.
Calling with summary "Standup", a start, an end, and the defaulted empty
location and description shows otherwise: the end_time entry carries the
summary value "Standup" rather than the provided end time, and the
never-provided location and description still appear as empty strings. -/
theorem update_event_body_c9 :
    update_event_body (some "Standup") (some "2026-01-05T10:00:00Z")
        (some "2026-01-05T11:00:00Z") (some "") (some "") none none
      = [("summary", PyVal.str "Standup"),
         ("start_time", PyVal.str "2026-01-05T10:00:00Z"),
         ("end_time", PyVal.str "Standup"),
         ("location", PyVal.str ""),
         ("description", PyVal.str "")]
  ∧ PyVal.str "Standup" ≠ PyVal.str "2026-01-05T11:00:00Z" :=
  ⟨rfl, by decide⟩

/-!  ## ToolFacade: get_event (src/main.py, lines 315-320)  -/

/-- The gateway get request that get_event assembles (calendar and event id). -/
structure GetRequest where
  calendarId : String
  eventId : String
deriving DecidableEq, Repr

/-- Embeds get_event (lines 315-320).  `execute` stands for the gateway: what
running a get request against the service would produce (an event rendering or
an HttpError).  The source builds the request object on line 318 but never
invokes execute on it, and the function body has no return statement, so
Python returns None whatever the service would have answered. -/
def get_event (execute : GetRequest → Except String String) (event_id : String)
    (calendar_id : String) : Option String :=
  let event : GetRequest := { calendarId := calendar_id, eventId := event_id }
  let _ := event
  let _ := execute
  none

/-- Claim C10: for every event id, calendar id and gateway behaviour, get_event
returns None — the constructed get request is never executed, so no event data
and no service error ever reaches the caller. -/
theorem get_event_c10 :
    ∀ (execute : GetRequest → Except String String) (event_id calendar_id : String),
      get_event execute event_id calendar_id = none :=
  fun _ _ _ => rfl
